import Mathlib

/-
Verification of the fetch-and-extract pipeline of the ApplicationTracker
repository (src/app/scraping/...).

The Python modules are shallowly embedded as executable Lean definitions:

* string operations of Python (slicing, strip, lower, title, split) become
  structural functions over the character list of a string, so that every
  definition evaluates by kernel reduction;
* HTML documents are embedded as records holding exactly the features the
  source queries out of the markup (selector texts, meta contents, parsed
  JSON-LD blocks, regex capture groups), in the order the source consults
  them; the control flow around those queries is translated line by line;
* network calls are embedded as explicit oracles: the Greenhouse lookup
  API as a function from (job id, board token) to an outcome, the HTTP
  layer of fetch.py as a function from a call counter to an outcome, the
  reader-proxy refetch of parse_common.py as a scripted outcome; every
  pipeline function additionally returns the list of side effects it
  performed (extractor runs, HTML proxy fetches), so that claims about
  what was and was not invoked are statements about that trace;
* Python truthiness and the "or" operator are modelled explicitly
  (pyTruthy, pyOr, orJ) wherever the source relies on them.
-/

set_option autoImplicit false

/-! ## Python string primitives, embedded over character lists -/

/-- Whitespace set used by the strip and split of Python. -/
def pyIsSpace (c : Char) : Bool :=
  c = ' ' || c = '\t' || c = '\n' || c = '\r' || c = '\x0b' || c = '\x0c'

def trimChars (l : List Char) : List Char :=
  ((l.dropWhile pyIsSpace).reverse.dropWhile pyIsSpace).reverse

/-- Python str.strip(). -/
def pyStrip (s : String) : String := ⟨trimChars s.data⟩

/-- Python str.lower() (ASCII, which is all the source compares). -/
def pyLower (s : String) : String := ⟨s.data.map Char.toLower⟩

/-- Python slicing s[:n]. -/
def pyTake (n : Nat) (s : String) : String := ⟨s.data.take n⟩

/-- Python str.replace for a one-character pattern. -/
def pyReplaceChar (a b : Char) (s : String) : String :=
  ⟨s.data.map (fun c => if c = a then b else c)⟩

/-- Python substring membership: needle in hay. -/
def containsSub (hay needle : String) : Bool :=
  hay.data.tails.any (fun t => needle.data.isPrefixOf t)

/-- Split a character list on a one-character separator (Python split("/")). -/
def splitOnChar (sep : Char) : List Char → List (List Char)
  | [] => [[]]
  | c :: rest =>
    let r := splitOnChar sep rest
    if c = sep then [] :: r
    else match r with
      | h :: t => (c :: h) :: t
      | [] => [[c]]

/-- The part of a string before the first occurrence of sep, the whole
string when sep does not occur: Python s.split(sep)[0]. -/
def splitHead (sep : List Char) : List Char → List Char
  | [] => []
  | c :: rest => if sep.isPrefixOf (c :: rest) then [] else c :: splitHead sep rest

def pythonTitleAux : List Char → Bool → List Char
  | [], _ => []
  | c :: rest, prevAlpha =>
    (if c.isAlpha then (if prevAlpha then c.toLower else c.toUpper) else c) ::
      pythonTitleAux rest c.isAlpha

/-- Python str.title(): a letter after a non-letter is uppercased, a letter
after a letter is lowercased. -/
def pythonTitle (s : String) : String := ⟨pythonTitleAux s.data false⟩

def dedupSpace : List Char → List Char
  | [] => []
  | [c] => [c]
  | c :: d :: rest =>
    if c = ' ' && d = ' ' then dedupSpace (d :: rest) else c :: dedupSpace (d :: rest)

/-- Python " ".join(s.split()): whitespace normalised to single spaces. -/
def pyCollapseWs (s : String) : String :=
  ⟨trimChars (dedupSpace (s.data.map (fun c => if pyIsSpace c then ' ' else c)))⟩

/-- Truthiness of an optional Python string (None and "" are falsy). -/
def pyTruthy : Option String → Bool
  | some s => s ≠ ""
  | none => false

/-- Python a or b over optional strings. -/
def pyOr (a b : Option String) : Option String :=
  if pyTruthy a then a else b

/-- Python assignment guarded by falsiness of the current value: the value
of the variable after "if not x (and candidate): x = candidate". -/
def pyAssign (prev cand : Option String) : Option String :=
  if pyTruthy prev then prev
  else match cand with
    | some v => some v
    | none => prev

def isHexChar (c : Char) : Bool :=
  c.isDigit || ('a' ≤ c && c ≤ 'f') || ('A' ≤ c && c ≤ 'F')

/-- Nonempty all-digit string: Python str.isdigit() on the ASCII inputs the
source feeds it. -/
def pyIsDigits (s : String) : Bool :=
  s.data ≠ [] && s.data.all Char.isDigit

/-! ## A small JSON value type for the embedded structured data -/

inductive Json where
  | null
  | bool (b : Bool)
  | num (n : Int)
  | str (s : String)
  | arr (xs : List Json)
  | obj (fields : List (String × Json))

/-- Python dict.get on an object, none on everything else. -/
def Json.get : Json → String → Option Json
  | .obj fields, k => fields.lookup k
  | _, _ => none

/-- Python truthiness of a JSON value. -/
def Json.truthy : Json → Bool
  | .null => false
  | .bool b => b
  | .num n => n ≠ 0
  | .str s => s ≠ ""
  | .arr xs => !xs.isEmpty
  | .obj fields => !fields.isEmpty

/-- Truthiness of an optional JSON value (a missing key is falsy). -/
def jTruthy : Option Json → Bool
  | some v => v.truthy
  | none => false

/-- Python a or b over optional JSON values. -/
def orJ (a b : Option Json) : Option Json :=
  match a with
  | some v => if v.truthy then some v else b
  | none => b

/-- Python x[:n] if isinstance(x, str) else x. -/
def truncIfStr (n : Nat) : Option Json → Option Json
  | some (.str s) => some (.str (pyTake n s))
  | x => x

/-! ## URLs

A URL is carried together with the components the source computes from it:
urlparse supplies scheme, hostname, path and the gh_jid/gh_src query
parameter lists; tldextract supplies subdomain, domain and suffix. -/

structure Url where
  raw : String
  scheme : String
  hostname : String
  subdomain : String
  domain : String
  suffix : String
  path : String
  ghJidParams : List String
  ghSrcParams : List String

/-- Nonempty segments of a URL path: the source filters the empty strings
out of path.strip("/").split("/"). -/
def pathParts (p : String) : List String :=
  ((splitOnChar '/' p.data).map (fun l => (⟨l⟩ : String))).filter (fun s => s ≠ "")

/-- src/app/scraping/parse_common.py, _extract_source_site. -/
def _extract_source_site (u : Url) : String :=
  if u.domain ≠ "" && u.suffix ≠ "" then u.domain ++ "." ++ u.suffix else u.raw

/-- Modelled from the spec: the glossary defines the registrable domain of a
hostname as its domain plus public suffix, e.g. "example.com" for
"careers.example.com". Used only to compare the specified sourceSite
behaviour with _extract_source_site. -/
def registrableDomainSpec (u : Url) : String :=
  u.domain ++ "." ++ u.suffix

/-! ## src/app/scraping/sites/greenhouse.py -/

namespace Greenhouse

/-- Outcome of one HTTP GET against the Greenhouse lookup API: a raised
exception (connection error, timeout), or a response with a status code and
a body; body none means resp.json() raised on a malformed body. -/
inductive ApiOutcome where
  | exn
  | resp (status : Nat) (body : Option Json)

/-- The lookup API as an oracle: job id and board token to outcome. -/
def GhApi : Type := String → String → ApiOutcome

/-- A 200 response whose body is a JSON object containing a title key:
exactly the outcomes _fetch_greenhouse_job accepts. -/
def validOutcome : ApiOutcome → Bool
  | .resp status (some (.obj fields)) => status == 200 && (fields.lookup "title").isSome
  | _ => false

/-- Body of _fetch_greenhouse_job applied to one API outcome: non-200
statuses, malformed bodies, non-dict bodies, bodies without a "title" key
and raised exceptions all come back as none. -/
def fetchOutcome : ApiOutcome → Option Json
  | .exn => none
  | .resp status body =>
    if status ≠ 200 then none
    else match body with
      | none => none
      | some data =>
        match data with
        | .obj fields => if (fields.lookup "title").isSome then some (.obj fields) else none
        | _ => none

/-- _fetch_greenhouse_job(job_id, board_token). -/
def _fetch_greenhouse_job (api : GhApi) (job_id board_token : String) : Option Json :=
  fetchOutcome (api job_id board_token)

/-- _pretty_token: replace separators with spaces and title-case. -/
def _pretty_token (token : Option String) : Option String :=
  match token with
  | none => none
  | some tk =>
    if tk = "" then none
    else
      let t := pyStrip (pyReplaceChar '_' ' ' (pyReplaceChar '-' ' ' tk))
      if t ≠ "" then some (pythonTitle t) else none

/-- _candidate_board_tokens, computed from the tldextract domain of the
hostname (carried on the Url). -/
def _candidate_board_tokens (u : Url) : List String :=
  let domain := u.domain
  let candidates :=
    if domain ≠ "" then
      domain :: (if domain.data.take 4 = "with".data && domain.length > 4
                 then [(⟨domain.data.drop 4⟩ : String)] else [])
    else []
  -- deduplicate preserving order
  (candidates.foldl (fun acc t => if t ≠ "" && !acc.contains t then acc ++ [t] else acc) [])

/-- Result dict of parse_greenhouse_from_url: minimally title and employer. -/
structure GhResult where
  title : Option Json
  employer : Option Json

/-- The dict built from a valid API body and the board token used. -/
def ghBuild (data : Json) (token : String) : GhResult :=
  let title := data.get "title"
  let employer := orJ (data.get "company_name") ((_pretty_token (some token)).map Json.str)
  { title := truncIfStr 300 title, employer := truncIfStr 300 employer }

/-- The gh_jid-with-candidate-tokens loop of parse_greenhouse_from_url. -/
def goTokens (api : GhApi) (job_id : String) : List String → Option GhResult
  | [] => none
  | token :: rest =>
    match _fetch_greenhouse_job api job_id token with
    | some data => some (ghBuild data token)
    | none => goTokens api job_id rest

/-- parse_greenhouse_from_url. -/
def parse_greenhouse_from_url (api : GhApi) (u : Url) : Option GhResult :=
  let job_ids := if u.ghJidParams ≠ [] then u.ghJidParams else u.ghSrcParams
  let job_id_qs : Option String := job_ids.head?
  -- 1) direct Greenhouse URL with path token and id: /{token}/jobs/{id}
  let host := pyLower u.hostname
  let pathIds : Option (String × String) :=
    if containsSub host "greenhouse.io" then
      match pathParts u.path with
      | t :: s :: i :: _ => if s == "jobs" && pyIsDigits i then some (t, i) else none
      | _ => none
    else none
  let fromPath : Option GhResult :=
    match pathIds with
    | some (token, jid) =>
      match _fetch_greenhouse_job api jid token with
      | some data => some (ghBuild data token)
      | none => none
    | none => none
  match fromPath with
  | some r => some r
  | none =>
    -- 2) fallback: gh_jid in query with heuristic tokens from the hostname
    match job_id_qs with
    | none => none
    | some jid => goTokens api jid (_candidate_board_tokens u)

end Greenhouse

/-! ## src/app/scraping/sites/ultipro.py

The markup features the extractor queries are carried on a record, in the
order the source consults them: OpenGraph and Twitter title metas, visible
h1/h2 heading texts, the data-automation and data-bind marker elements,
the raw-markup regex fallbacks for both markers (tag-stripped capture), the
script-embedded title values matched by the essential_title_keys patterns
(in document order), the OpenGraph site-name meta, and the script-embedded
employer values matched by the CompanyName / hiringOrganization patterns
(flattened in the order the nested loops of the source consider them). -/

namespace Ultipro

structure UltiDoc where
  ogTitle : Option String
  twitterTitle : Option String
  headings : List String
  oppTitleEl : Option String
  fmtTitleEl : Option String
  rawOppTitle : Option String
  rawFmtTitle : Option String
  scriptTitleCands : List String
  ogSiteName : Option String
  scriptEmployerCands : List String

def UltiDoc.empty : UltiDoc :=
  { ogTitle := none, twitterTitle := none, headings := [], oppTitleEl := none,
    fmtTitleEl := none, rawOppTitle := none, rawFmtTitle := none,
    scriptTitleCands := [], ogSiteName := none, scriptEmployerCands := [] }

/-- _clean: strip, reject empty, cap to 300. -/
def _clean (text : Option String) : Option String :=
  match text with
  | none => none
  | some t =>
    if t = "" then none
    else
      let s := pyStrip t
      if s = "" then none else some (pyTake 300 s)

/-- _is_generic_title. -/
def _is_generic_title (val : String) : Bool :=
  let low := pyLower val
  containsSub low "opportunity detail"
    || ["ukg pro", "job details", "opportunity", "job"].contains low
    || containsSub low "unsupported browser"

/-- One cleaned, non-generic title candidate, none otherwise. -/
def goodTitle (x : Option String) : Option String :=
  match _clean x with
  | some c => if _is_generic_title c then none else some c
  | none => none

/-- First cleaned, non-generic candidate of a list (the break-out of the
candidate loops of the source). -/
def firstGoodTitle (xs : List String) : Option String :=
  xs.findSome? (fun s => goodTitle (some s))

/-- One cleaned employer candidate not containing the platform brand. -/
def goodEmployer (x : String) : Option String :=
  match _clean (some x) with
  | some c => if containsSub (pyLower c) "ultipro" then none else some c
  | none => none

structure SiteResult where
  title : Option String
  employer : Option String

/-- parse_ultipro_from_html: the title sources in source order (OG/Twitter
metas, headings, marker elements, raw-markup fallbacks, script blobs), each
cleaned and rejected when generic; employer from the OG site-name meta,
else the first script-embedded candidate not naming the platform. -/
def parse_ultipro_from_html (d : UltiDoc) : SiteResult :=
  let title :=
    pyOr (goodTitle d.ogTitle)
      (pyOr (goodTitle d.twitterTitle)
        (pyOr (firstGoodTitle d.headings)
          (pyOr (goodTitle d.oppTitleEl)
            (pyOr (goodTitle d.fmtTitleEl)
              (pyOr (goodTitle d.rawOppTitle)
                (pyOr (goodTitle d.rawFmtTitle)
                  (firstGoodTitle d.scriptTitleCands)))))))
  let employer :=
    pyOr (_clean d.ogSiteName) (d.scriptEmployerCands.findSome? goodEmployer)
  { title := title, employer := employer }

end Ultipro

/-! ## src/app/scraping/sites/linkedin.py -/

namespace LinkedIn

/-- _clean of linkedin.py: whitespace-collapse, reject empty, cap to 300. -/
def _clean (text : Option String) : Option String :=
  match text with
  | none => none
  | some t =>
    if t = "" then none
    else
      let s := pyCollapseWs t
      if s = "" then none else some (pyTake 300 s)

/-- _bad_employer. -/
def _bad_employer (val : String) : Bool :=
  ["linkedin", "jobs", "job", "hiring"].contains (pyLower (pyStrip val))

/-- One ld+json script block as the lightweight regex scan of the source
sees it: whether the JobPosting type marker matched, and the first capture
of the title and hiringOrganization-name patterns. -/
structure LiLd where
  hasJobPosting : Bool
  titleMatch : Option String
  orgMatch : Option String

structure LiDoc where
  ldScripts : List LiLd
  titleSelCands : List String
  employerSelCands : List String
  scriptEmployerCands : List String

/-- The ld+json loop of parse_linkedin_from_html, threading the title and
employer variables and breaking once both are set. -/
def liLdLoop : List LiLd → Option String → Option String → Option String × Option String
  | [], t, e => (t, e)
  | s :: rest, t, e =>
    if !s.hasJobPosting then liLdLoop rest t e
    else
      let t' := if s.titleMatch.isSome && !pyTruthy t then _clean s.titleMatch else t
      let e' := if s.orgMatch.isSome && !pyTruthy e then _clean s.orgMatch else e
      if pyTruthy t' && pyTruthy e' then (t', e') else liLdLoop rest t' e'

/-- parse_linkedin_from_html: ld+json regex scan, then visible DOM
selectors, then script blobs; note that the title selectors apply no
generic-title rejection. -/
def parse_linkedin_from_html (d : LiDoc) : Ultipro.SiteResult :=
  let (title, employer) := liLdLoop d.ldScripts none none
  let employer :=
    if !pyTruthy employer then
      match d.employerSelCands.findSome?
          (fun s => match _clean (some s) with
                    | some c => if _bad_employer c then none else some c
                    | none => none) with
      | some c => some c
      | none => employer
    else employer
  let title :=
    if !pyTruthy title then
      match d.titleSelCands.findSome? (fun s => _clean (some s)) with
      | some c => some c
      | none => title
    else title
  let employer :=
    if !pyTruthy employer then
      match d.scriptEmployerCands.findSome?
          (fun s => match _clean (some s) with
                    | some c => if _bad_employer c then none else some c
                    | none => none) with
      | some c => some c
      | none => employer
    else employer
  -- de-emphasise the host brand as employer
  let employer :=
    match employer with
    | some e => if _bad_employer e then none else some e
    | none => none
  { title := title, employer := employer }

end LinkedIn

/-! ## src/app/scraping/parse_common.py -/

namespace ParseCommon

/-- Side effects of one pipeline invocation: which site extractors ran and
whether the forced reader-proxy HTML refetch was issued. The linkedin and
icims extractor runs are expressible so that their absence is a statement,
not a modelling gap. -/
inductive Effect where
  | ranUltipro
  | ranLinkedin
  | ranIcims
  | htmlProxyFetch
deriving DecidableEq

/-- Outcome of the forced reader-proxy refetch: a raised exception, or a
response with its ok flag, the truthiness of its text, and the UltiPro
features of that text. -/
inductive ProxyOutcome where
  | exn
  | resp (ok : Bool) (text_nonempty : Bool) (updoc : Ultipro.UltiDoc)

/-- The ambient network behaviour of one pipeline run. -/
structure Env where
  api : Greenhouse.GhApi
  proxy : ProxyOutcome

/-- The features parse_job_from_html queries out of the fetched HTML:
each ld+json script as a parsed JSON value (none when json.loads raised),
the first h1 text (stripped; present iff the element is), the og:title
content, the title-element text (present iff soup.title and its string are
truthy), the og:site_name content, and the UltiPro features of the same
markup for the site-specific branch. -/
structure Doc where
  ldScripts : List (Option Json)
  h1 : Option String
  ogTitle : Option String
  titleTag : Option String
  ogSiteName : Option String
  up : Ultipro.UltiDoc

/-- The node-type test of the JSON-LD loop: a list type must contain the
string "JobPosting", any other type must equal it. -/
def isJobPostingType : Option Json → Bool
  | some (.arr xs) => xs.any (fun j => match j with | .str s => s == "JobPosting" | _ => false)
  | some (.str s) => s == "JobPosting"
  | _ => false

/-- Nodes of one parsed script: the data itself, or its elements when it is
a list. -/
def nodesOf : Json → List Json
  | .arr xs => xs
  | j => [j]

/-- A dict node whose @type passes the JobPosting test. -/
def isJobPostingNode (node : Json) : Bool :=
  match node with
  | .obj _ => isJobPostingType (node.get "@type")
  | _ => false

/-- The first JobPosting dict node across the ld+json scripts: the node the
JSON-LD loop of parse_job_from_html returns on. -/
def firstJobPosting (scripts : List (Option Json)) : Option Json :=
  scripts.findSome? (fun s =>
    match s with
    | none => none
    | some data => (nodesOf data).findSome? (fun n => if isJobPostingNode n then some n else none))

/-- The result dict produced in parse_job_from_html. -/
structure PipeResult where
  title : Option Json
  employer : Option Json
  date_posted : Option Json
  location : Option Json
  source_site : String

/-- The dict returned for a JSON-LD JobPosting node. -/
def ldResult (node : Json) (u : Url) : PipeResult :=
  let title := orJ (node.get "title") (node.get "name")
  let employer :=
    match node.get "hiringOrganization" with
    | some (.obj org) => (Json.obj org).get "name"
    | _ => none
  let date_posted := node.get "datePosted"
  let location :=
    match node.get "jobLocation" with
    | some (.obj jl) =>
      match (Json.obj jl).get "address" with
      | some (.obj addr) =>
        orJ (orJ ((Json.obj addr).get "addressLocality") ((Json.obj addr).get "addressRegion"))
          ((Json.obj addr).get "addressCountry")
      | _ => none
    | _ => none
  { title := truncIfStr 300 title, employer := truncIfStr 300 employer,
    date_posted := date_posted, location := truncIfStr 255 location,
    source_site := _extract_source_site u }

/-- The gh and (gh.get("title") or gh.get("employer")) guard. -/
def ghHit : Option Greenhouse.GhResult → Bool
  | some r => jTruthy r.title || jTruthy r.employer
  | none => false

/-- The 2b branch of parse_job_from_html: when the tldextract domain is
"ultipro", run the site extractor; return early when it found a title; keep
its employer as a hint; otherwise issue the forced reader-proxy refetch and
re-run the extractor on the fetched text. Returns the early result if any,
the employer hint, and the effect trace. -/
def ultiproStage (env : Env) (d : Doc) (u : Url) :
    Option PipeResult × Option String × List Effect :=
  if u.domain == "ultipro" then
    let up := Ultipro.parse_ultipro_from_html d.up
    if pyTruthy up.title then
      (some { title := up.title.map .str, employer := up.employer.map .str,
              date_posted := none, location := none,
              source_site := _extract_source_site u }, none, [.ranUltipro])
    else
      let hint := if pyTruthy up.employer then up.employer else none
      match env.proxy with
      | .exn => (none, hint, [.ranUltipro, .htmlProxyFetch])
      | .resp ok text_nonempty updoc =>
        if ok && text_nonempty then
          let up2 := Ultipro.parse_ultipro_from_html updoc
          if pyTruthy up2.title then
            (some { title := up2.title.map .str,
                    employer := (pyOr up2.employer hint).map .str,
                    date_posted := none, location := none,
                    source_site := _extract_source_site u }, hint,
             [.ranUltipro, .htmlProxyFetch, .ranUltipro])
          else
            let hint2 := if pyTruthy up2.employer && !pyTruthy hint then up2.employer else hint
            (none, hint2, [.ranUltipro, .htmlProxyFetch, .ranUltipro])
        else (none, hint, [.ranUltipro, .htmlProxyFetch])
  else (none, none, [])

/-- Title of the heuristic fallback tier: h1 text capped to 300, else the
truthy og:title content, else the title-element text split on the common
separators, keeping the part before the first separator. -/
def genericTitle (d : Doc) : Option String :=
  let t1 : Option String := d.h1.map (pyTake 300)
  let ogCand : Option String :=
    match d.ogTitle with
    | some c => if c ≠ "" then some (pyTake 300 c) else none
    | none => none
  let ttCand : Option String :=
    match d.titleTag with
    | some txt =>
      let full_title := pyTake 300 txt
      let sepHit : Option String :=
        [" | ", " - ", " – ", " — "].findSome? (fun sep =>
          if containsSub full_title sep then
            let candidate := pyStrip (⟨splitHead sep.data full_title.data⟩ : String)
            if candidate ≠ "" then some (pyTake 300 candidate) else none
          else none)
      match sepHit with
      | some c => some c
      | none => if full_title ≠ "" then some full_title else none
    | none => none
  pyAssign (pyAssign t1 ogCand) ttCand

/-- The set of path segments the slug derivation skips. -/
def slugSkip : List String :=
  ["jobs", "job", "jobboard", "opportunitydetail", "careers",
   "en", "en-us", "en_us", "en-US", "en_US"]

/-- _is_id_segment: an optional leading r or R followed by at least four
digits. -/
def _is_id_segment (seg : String) : Bool :=
  let t := match seg.data with
    | c :: rest => if c = 'r' || c = 'R' then rest else seg.data
    | [] => []
  decide (t.length ≥ 4) && t.all Char.isDigit

/-- The 8-4-4-4-12 hex shape of a UUID. -/
def isUuidShape (seg : String) : Bool :=
  match (splitOnChar '-' seg.data).map (fun l => (⟨l⟩ : String)) with
  | [a, b, c, d, e] =>
    a.length == 8 && b.length == 4 && c.length == 4 && d.length == 4 && e.length == 12
      && (a ++ b ++ c ++ d ++ e).data.all isHexChar
  | _ => false

/-- _is_guid_like: a UUID, or at least sixteen hex characters once dashes
and underscores are removed. -/
def _is_guid_like (seg : String) : Bool :=
  isUuidShape seg
    || (let compact := seg.data.filter (fun c => c ≠ '-' && c ≠ '_')
        decide (compact.length ≥ 16) && compact.all isHexChar)

/-- _is_upper_alnum_token: at least six alphanumeric characters, none of
them lowercase, with at least one letter and one digit. -/
def _is_upper_alnum_token (seg : String) : Bool :=
  let s := seg.data.filter Char.isAlphanum
  if decide (s.length ≥ 6) && s.map Char.toUpper == s then
    s.any Char.isAlpha && s.any Char.isDigit
  else false

/-- The 3c step of parse_job_from_html: derive a title from the URL path
slug, skipping boilerplate, id-shaped, GUID-shaped and tenant-code-shaped
segments, preferring the last remaining segment holding a separator. -/
def slugTitle (u : Url) : Option String :=
  let parts := pathParts u.path
  let candidates := parts.filter (fun p =>
    !slugSkip.contains (pyLower p) && !_is_id_segment p && !_is_guid_like p
      && !_is_upper_alnum_token p)
  let seg : Option String :=
    match candidates.reverse.find? (fun s => containsSub s "-" || containsSub s "_") with
    | some s => some s
    | none => candidates.getLast?
  match seg with
  | some s =>
    let raw := pyStrip (pyReplaceChar '_' ' ' (pyReplaceChar '-' ' ' s))
    if raw ≠ "" then some (pyTake 300 (pythonTitle raw)) else none
  | none => none

/-- Employer of the heuristic fallback tier: truthy og:site_name content,
else the title-cased tldextract domain, else the UltiPro employer hint. -/
def genericEmployer (d : Doc) (u : Url) (hint : Option String) : Option String :=
  let e1 : Option String :=
    match d.ogSiteName with
    | some c => if c ≠ "" then some (pyTake 300 c) else none
    | none => none
  let domCand : Option String :=
    if u.domain ≠ "" then some (pyTake 300 (pythonTitle u.domain)) else none
  let hintCand : Option String :=
    match hint with
    | some h => if h ≠ "" then some (pyTake 300 h) else none
    | none => none
  pyAssign (pyAssign e1 domCand) hintCand

/-- The heuristic fallback dict (steps 3 to 3c of parse_job_from_html; the
slug step 3c runs after the employer steps in the source but the two are
independent). -/
def genericStage (d : Doc) (u : Url) (hint : Option String) : PipeResult :=
  let title := pyAssign (genericTitle d) (slugTitle u)
  { title := title.map .str, employer := (genericEmployer d u hint).map .str,
    date_posted := none, location := none, source_site := _extract_source_site u }

/-- Steps 2 to 3c of parse_job_from_html: the JSON-LD scan, the UltiPro
branch, and the heuristic fallback. -/
def afterGreenhouse (env : Env) (d : Doc) (u : Url) : PipeResult × List Effect :=
  match firstJobPosting d.ldScripts with
  | some node => (ldResult node u, [])
  | none =>
    match ultiproStage env d u with
    | (some r, _, tr) => (r, tr)
    | (none, hint, tr) => (genericStage d u hint, tr)

/-- parse_job_from_html: the Greenhouse API first, returning immediately
when it yields a title or an employer; then the JSON-LD scan; then the
UltiPro branch; then the heuristic fallback. The second component is the
trace of side effects performed. -/
def parse_job_from_html (env : Env) (d : Doc) (u : Url) : PipeResult × List Effect :=
  match Greenhouse.parse_greenhouse_from_url env.api u with
  | some gh =>
    if jTruthy gh.title || jTruthy gh.employer then
      ({ title := gh.title, employer := gh.employer, date_posted := none,
         location := none, source_site := _extract_source_site u }, [])
    else afterGreenhouse env d u
  | none => afterGreenhouse env d u

end ParseCommon

/-! ## src/app/scraping/fetch.py

The HTTP layer is an oracle from a global call counter to an outcome, so
that the retry wrapper of tenacity, which re-runs the decorated function,
observes fresh outcomes on each attempt. Every primitive GET consumes one
counter slot; the request kinds issued are recorded in a trace. -/

namespace Fetch

/-- Outcome of one primitive HTTP GET: a raised exception (connection
error, timeout), or a response with a status code and a body. -/
inductive HttpOutcome where
  | exn
  | resp (status : Nat) (body : String)

/-- The kind of each request fetch_url issues, in order: the direct GET,
the cookie-priming GET of the origin root, the session retry with Referer,
and the reader-proxy GET. -/
inductive HttpReq where
  | direct
  | prime
  | sessionRetry
  | proxyGet
deriving DecidableEq

/-- What one attempt of fetch_url raises: a propagated connection-level
exception, or the HTTPError of raise_for_status. -/
inductive FetchErr where
  | exn
  | httpStatus (code : Nat)
deriving DecidableEq

/-- Configuration read by fetch_url: the FETCH_PROXY_READER setting and the
Playwright capability (some html when rendering is available and produced
content, none otherwise). -/
structure FetchCfg where
  proxyReader : String
  render : Option String

/-- requests Response.ok: status below 400. -/
def respOk (status : Nat) : Bool := status < 400

/-- _should_reader_fallback: for ultipro.com hosts, shell indicators in the
body, or absence of both expected content hooks. -/
def _should_reader_fallback (u : Url) (body : String) : Bool :=
  let host := pyLower u.hostname
  let text := pyLower body
  if containsSub host "ultipro.com" then
    if containsSub text "unsupported browser" || containsSub text "data-bind="
        || containsSub text "ko.applybindings" || containsSub text "knockout" then
      true
    else
      !containsSub text "data-automation=\"opportunity-title\""
        && !containsSub text "formattedtitle"
  else false

/-- The Playwright step for ultipro.com hosts: keep the rendered content
when rendering was available and produced a truthy result, else the body
obtained so far. -/
def afterShell (cfg : FetchCfg) (u : Url) (body : String) : String :=
  if containsSub (pyLower u.hostname) "ultipro.com" then
    match cfg.render with
    | some r => if r ≠ "" then r else body
    | none => body
  else body

/-- One attempt of the undecorated body of fetch_url, reading outcomes at
counter k: the direct GET; on 403 the priming GET (outcome ignored), the
session retry, and, when a proxy reader is configured, the proxy GET; on
other statuses raise_for_status, then the JS-shell reader fallback and the
Playwright step. Returns the result, the requests issued, and the next
counter value. -/
def fetch_once (cfg : FetchCfg) (u : Url) (net : Nat → HttpOutcome) (k : Nat) :
    Except FetchErr String × List HttpReq × Nat :=
  match net k with
  | .exn => (.error .exn, [.direct], k + 1)
  | .resp status body =>
    if status == 403 then
      -- the priming GET consumes slot k+1; its outcome is swallowed
      match net (k + 2) with
      | .exn => (.error .exn, [.direct, .prime, .sessionRetry], k + 3)
      | .resp st2 b2 =>
        if respOk st2 then (.ok b2, [.direct, .prime, .sessionRetry], k + 3)
        else
          if pyStrip cfg.proxyReader ≠ "" then
            match net (k + 3) with
            | .exn => (.error .exn, [.direct, .prime, .sessionRetry, .proxyGet], k + 4)
            | .resp st3 b3 =>
              if 400 ≤ st3 then
                (.error (.httpStatus st3), [.direct, .prime, .sessionRetry, .proxyGet], k + 4)
              else (.ok b3, [.direct, .prime, .sessionRetry, .proxyGet], k + 4)
          else (.error (.httpStatus 403), [.direct, .prime, .sessionRetry], k + 3)
    else
      if 400 ≤ status then (.error (.httpStatus status), [.direct], k + 1)
      else
        if _should_reader_fallback u body then
          match net (k + 1) with
          | .exn => (.ok (afterShell cfg u body), [.direct, .proxyGet], k + 2)
          | .resp stR bR =>
            if respOk stR && bR ≠ "" then (.ok bR, [.direct, .proxyGet], k + 2)
            else (.ok (afterShell cfg u body), [.direct, .proxyGet], k + 2)
        else (.ok (afterShell cfg u body), [.direct], k + 1)

/-- fetch_url as decorated: tenacity stop_after_attempt(3) re-runs the
whole body on any raised exception, up to three attempts, and surfaces the
last failure. -/
def fetch_url (cfg : FetchCfg) (u : Url) (net : Nat → HttpOutcome) :
    Except FetchErr String × List HttpReq :=
  match fetch_once cfg u net 0 with
  | (.ok b, t1, _) => (.ok b, t1)
  | (.error _, t1, k1) =>
    match fetch_once cfg u net k1 with
    | (.ok b, t2, _) => (.ok b, t1 ++ t2)
    | (.error _, t2, k2) =>
      match fetch_once cfg u net k2 with
      | (r3, t3, _) => (r3, t1 ++ t2 ++ t3)

/-- Modelled from the spec: the retry policy the claim describes, wrapping
each individual HTTP call with up to three attempts and retrying only on
transient failures (connection errors, timeouts), never on HTTP status
errors, and never re-running the strategy chain as a whole. -/
def specCall (net : Nat → HttpOutcome) (k : Nat) : HttpOutcome × Nat :=
  match net k with
  | .exn =>
    match net (k + 1) with
    | .exn =>
      match net (k + 2) with
      | o => (o, k + 3)
    | o => (o, k + 2)
  | o => (o, k + 1)

/-- Modelled from the spec: the strategy chain of fetch_url with the
per-call retry of specCall around every network call and no whole-chain
retry; a connection failure still raised after three per-call attempts, or
any HTTP status error, surfaces immediately. -/
def fetch_url_spec (cfg : FetchCfg) (u : Url) (net : Nat → HttpOutcome) :
    Except FetchErr String × List HttpReq :=
  match specCall net 0 with
  | (.exn, _) => (.error .exn, [.direct])
  | (.resp status body, k1) =>
    if status == 403 then
      let (_, k2) := specCall net k1  -- priming call, outcome ignored
      match specCall net k2 with
      | (.exn, _) => (.error .exn, [.direct, .prime, .sessionRetry])
      | (.resp st2 b2, k3) =>
        if respOk st2 then (.ok b2, [.direct, .prime, .sessionRetry])
        else
          if pyStrip cfg.proxyReader ≠ "" then
            match specCall net k3 with
            | (.exn, _) => (.error .exn, [.direct, .prime, .sessionRetry, .proxyGet])
            | (.resp st3 b3, _) =>
              if 400 ≤ st3 then
                (.error (.httpStatus st3), [.direct, .prime, .sessionRetry, .proxyGet])
              else (.ok b3, [.direct, .prime, .sessionRetry, .proxyGet])
          else (.error (.httpStatus 403), [.direct, .prime, .sessionRetry])
    else
      if 400 ≤ status then (.error (.httpStatus status), [.direct])
      else
        if _should_reader_fallback u body then
          match specCall net k1 with
          | (.exn, _) => (.ok (afterShell cfg u body), [.direct, .proxyGet])
          | (.resp stR bR, _) =>
            if respOk stR && bR ≠ "" then (.ok bR, [.direct, .proxyGet])
            else (.ok (afterShell cfg u body), [.direct, .proxyGet])
        else (.ok (afterShell cfg u body), [.direct])

end Fetch

/-! ## Concrete inputs used by the claim witnesses and counterexamples -/

/-- An API oracle on which every call raises. -/
def noApi : Greenhouse.GhApi := fun _ _ => Greenhouse.ApiOutcome.exn

/-- The components of https://boards.greenhouse.io/acme/jobs/12345. -/
def uGh : Url :=
  { raw := "https://boards.greenhouse.io/acme/jobs/12345", scheme := "https",
    hostname := "boards.greenhouse.io", subdomain := "boards",
    domain := "greenhouse", suffix := "io", path := "/acme/jobs/12345",
    ghJidParams := [], ghSrcParams := [] }

/-- The lookup API answering the acme board with the Data Engineer record. -/
def apiAcme : Greenhouse.GhApi := fun jid tok =>
  if jid = "12345" && tok = "acme" then
    .resp 200 (some (.obj [("title", .str "Data Engineer"), ("company_name", .str "Acme Inc")]))
  else .exn

def envGh : ParseCommon.Env := { api := apiAcme, proxy := .exn }

def envNone : ParseCommon.Env := { api := noApi, proxy := .exn }

/-- A document with none of the queried features present. -/
def emptyDoc : ParseCommon.Doc :=
  { ldScripts := [], h1 := none, ogTitle := none, titleTag := none,
    ogSiteName := none, up := Ultipro.UltiDoc.empty }

/-- The components of https://www.linkedin.com/jobs/view/4012345678. -/
def uLi : Url :=
  { raw := "https://www.linkedin.com/jobs/view/4012345678", scheme := "https",
    hostname := "www.linkedin.com", subdomain := "www", domain := "linkedin",
    suffix := "com", path := "/jobs/view/4012345678",
    ghJidParams := [], ghSrcParams := [] }

/-- The components of an UltiPro-hosted posting URL. -/
def uUp : Url :=
  { raw := "https://recruiting2.ultipro.com/ABC1234/JobBoard/11111111-2222-3333-4444-555555555555/OpportunityDetail",
    scheme := "https", hostname := "recruiting2.ultipro.com",
    subdomain := "recruiting2", domain := "ultipro", suffix := "com",
    path := "/ABC1234/JobBoard/11111111-2222-3333-4444-555555555555/OpportunityDetail",
    ghJidParams := [], ghSrcParams := [] }

/-- The components of a URL whose hostname has no public suffix: tldextract
leaves the suffix empty and _extract_source_site falls back to the raw URL. -/
def uLocal : Url :=
  { raw := "http://localhost/jobs", scheme := "http", hostname := "localhost",
    subdomain := "", domain := "localhost", suffix := "", path := "/jobs",
    ghJidParams := [], ghSrcParams := [] }

/-- The components of https://careers.example.com/jobs/987654/senior-backend-engineer. -/
def u9 : Url :=
  { raw := "https://careers.example.com/jobs/987654/senior-backend-engineer",
    scheme := "https", hostname := "careers.example.com", subdomain := "careers",
    domain := "example", suffix := "com",
    path := "/jobs/987654/senior-backend-engineer",
    ghJidParams := [], ghSrcParams := [] }

/-- A document whose only feature is an h1 reading Engineer. -/
def docH1 : ParseCommon.Doc :=
  { ldScripts := [], h1 := some "Engineer", ogTitle := none, titleTag := none,
    ogSiteName := none, up := Ultipro.UltiDoc.empty }

/-- An UltiPro document whose only feature is an OpenGraph title. -/
def docUpTitle : Ultipro.UltiDoc :=
  { Ultipro.UltiDoc.empty with ogTitle := some "Software Engineer I" }

/-- A LinkedIn document whose only feature is an h1 reading Job Details. -/
def liDocJD : LinkedIn.LiDoc :=
  { ldScripts := [], titleSelCands := ["Job Details"], employerSelCands := [],
    scriptEmployerCands := [] }

/-- A JobPosting JSON-LD node carrying neither a title nor a name field. -/
def node0 : Json := .obj [("@type", .str "JobPosting")]

/-- A document embedding only that bare JobPosting node. -/
def doc10 : ParseCommon.Doc :=
  { ldScripts := [some node0], h1 := none, ogTitle := none, titleTag := none,
    ogSiteName := none, up := Ultipro.UltiDoc.empty }

/-- Fetch configuration with no proxy reader and no rendering capability. -/
def cfg0 : Fetch.FetchCfg := { proxyReader := "", render := none }

/-- A network script whose first call returns HTTP 500 and whose second
returns HTTP 200 with body ok. -/
def net7 : Nat → Fetch.HttpOutcome := fun k =>
  if k = 0 then .resp 500 "boom" else .resp 200 "ok"

/-- A network script: direct GET answers 403, the session retry (slot 2,
after the priming call in slot 1) answers 200. -/
def net8 : Nat → Fetch.HttpOutcome := fun k =>
  if k = 0 then .resp 403 "denied"
  else if k = 2 then .resp 200 "content"
  else .exn
/-! ## Helper lemmas -/

theorem pyTake_length (n : Nat) (s : String) : (pyTake n s).length ≤ n := by
  have h : (pyTake n s).length = (s.data.take n).length := rfl
  rw [h, List.length_take]
  omega

theorem truncIfStr_bound (n : Nat) (x : Option Json) :
    ∀ s, truncIfStr n x = some (.str s) → s.length ≤ n := by
  intro s h
  match x with
  | none => simp [truncIfStr] at h
  | some (.str t) =>
    simp only [truncIfStr, Option.some.injEq, Json.str.injEq] at h
    subst h; exact pyTake_length n t
  | some .null | some (.bool _) | some (.num _) | some (.arr _) | some (.obj _) =>
    simp [truncIfStr] at h

theorem pyOr_eq_some {a b : Option String} {t : String} (h : pyOr a b = some t) :
    a = some t ∨ b = some t := by
  unfold pyOr at h
  split at h
  · exact Or.inl h
  · exact Or.inr h

theorem pyAssign_bound {n : Nat} {a b : Option String}
    (ha : ∀ s, a = some s → s.length ≤ n) (hb : ∀ s, b = some s → s.length ≤ n) :
    ∀ s, pyAssign a b = some s → s.length ≤ n := by
  intro s h
  unfold pyAssign at h
  split at h
  · exact ha s h
  · split at h
    · exact hb s h
    · exact ha s h

theorem Ultipro.clean_bound {x : Option String} {c : String}
    (h : Ultipro._clean x = some c) : c.length ≤ 300 := by
  unfold Ultipro._clean at h
  match x with
  | none => simp at h
  | some t =>
    simp only at h
    split at h
    · simp at h
    · split at h
      · simp at h
      · simp only [Option.some.injEq] at h
        subst h; exact pyTake_length 300 _

theorem Ultipro.goodTitle_not_generic {x : Option String} {t : String}
    (h : Ultipro.goodTitle x = some t) : Ultipro._is_generic_title t = false := by
  unfold Ultipro.goodTitle at h
  cases hc : Ultipro._clean x with
  | none => rw [hc] at h; simp at h
  | some c =>
    rw [hc] at h
    by_cases hg : Ultipro._is_generic_title c
    · simp [hg] at h
    · simp only [Bool.not_eq_true] at hg
      simp [hg] at h
      subst h; exact hg

theorem Ultipro.goodTitle_bound {x : Option String} {t : String}
    (h : Ultipro.goodTitle x = some t) : t.length ≤ 300 := by
  unfold Ultipro.goodTitle at h
  cases hc : Ultipro._clean x with
  | none => rw [hc] at h; simp at h
  | some c =>
    rw [hc] at h
    by_cases hg : Ultipro._is_generic_title c
    · simp [hg] at h
    · simp only [Bool.not_eq_true] at hg
      simp [hg] at h
      subst h; exact Ultipro.clean_bound hc

theorem Ultipro.firstGoodTitle_not_generic {xs : List String} {t : String}
    (h : Ultipro.firstGoodTitle xs = some t) : Ultipro._is_generic_title t = false := by
  obtain ⟨a, _, ha⟩ := List.exists_of_findSome?_eq_some h
  exact Ultipro.goodTitle_not_generic ha

theorem Ultipro.firstGoodTitle_bound {xs : List String} {t : String}
    (h : Ultipro.firstGoodTitle xs = some t) : t.length ≤ 300 := by
  obtain ⟨a, _, ha⟩ := List.exists_of_findSome?_eq_some h
  exact Ultipro.goodTitle_bound ha

theorem Ultipro.title_not_generic {d : Ultipro.UltiDoc} {t : String}
    (h : (Ultipro.parse_ultipro_from_html d).title = some t) :
    Ultipro._is_generic_title t = false := by
  unfold Ultipro.parse_ultipro_from_html at h
  simp only at h
  rcases pyOr_eq_some h with h | h
  · exact Ultipro.goodTitle_not_generic h
  rcases pyOr_eq_some h with h | h
  · exact Ultipro.goodTitle_not_generic h
  rcases pyOr_eq_some h with h | h
  · exact Ultipro.firstGoodTitle_not_generic h
  rcases pyOr_eq_some h with h | h
  · exact Ultipro.goodTitle_not_generic h
  rcases pyOr_eq_some h with h | h
  · exact Ultipro.goodTitle_not_generic h
  rcases pyOr_eq_some h with h | h
  · exact Ultipro.goodTitle_not_generic h
  rcases pyOr_eq_some h with h | h
  · exact Ultipro.goodTitle_not_generic h
  · exact Ultipro.firstGoodTitle_not_generic h

theorem Ultipro.title_bound {d : Ultipro.UltiDoc} {t : String}
    (h : (Ultipro.parse_ultipro_from_html d).title = some t) : t.length ≤ 300 := by
  unfold Ultipro.parse_ultipro_from_html at h
  simp only at h
  rcases pyOr_eq_some h with h | h
  · exact Ultipro.goodTitle_bound h
  rcases pyOr_eq_some h with h | h
  · exact Ultipro.goodTitle_bound h
  rcases pyOr_eq_some h with h | h
  · exact Ultipro.firstGoodTitle_bound h
  rcases pyOr_eq_some h with h | h
  · exact Ultipro.goodTitle_bound h
  rcases pyOr_eq_some h with h | h
  · exact Ultipro.goodTitle_bound h
  rcases pyOr_eq_some h with h | h
  · exact Ultipro.goodTitle_bound h
  rcases pyOr_eq_some h with h | h
  · exact Ultipro.goodTitle_bound h
  · exact Ultipro.firstGoodTitle_bound h

theorem Ultipro.goodEmployer_bound {x : String} {c : String}
    (h : Ultipro.goodEmployer x = some c) : c.length ≤ 300 := by
  unfold Ultipro.goodEmployer at h
  cases hc : Ultipro._clean (some x) with
  | none => rw [hc] at h; simp at h
  | some e =>
    rw [hc] at h
    by_cases hg : containsSub (pyLower e) "ultipro"
    · simp [hg] at h
    · simp only [Bool.not_eq_true] at hg
      simp [hg] at h
      subst h; exact Ultipro.clean_bound hc

theorem Ultipro.employer_bound {d : Ultipro.UltiDoc} {t : String}
    (h : (Ultipro.parse_ultipro_from_html d).employer = some t) : t.length ≤ 300 := by
  unfold Ultipro.parse_ultipro_from_html at h
  simp only at h
  rcases pyOr_eq_some h with h | h
  · exact Ultipro.clean_bound h
  · obtain ⟨a, _, ha⟩ := List.exists_of_findSome?_eq_some h
    exact Ultipro.goodEmployer_bound ha

theorem Greenhouse.ghBuild_title_bound (data : Json) (token : String) :
    ∀ s, (Greenhouse.ghBuild data token).title = some (.str s) → s.length ≤ 300 := by
  intro s h
  exact truncIfStr_bound 300 _ s h

theorem Greenhouse.ghBuild_employer_bound (data : Json) (token : String) :
    ∀ s, (Greenhouse.ghBuild data token).employer = some (.str s) → s.length ≤ 300 := by
  intro s h
  exact truncIfStr_bound 300 _ s h

theorem Greenhouse.goTokens_shape {api : Greenhouse.GhApi} {jid : String}
    {l : List String} {r : Greenhouse.GhResult}
    (h : Greenhouse.goTokens api jid l = some r) :
    ∃ data token, r = Greenhouse.ghBuild data token := by
  induction l with
  | nil => simp [Greenhouse.goTokens] at h
  | cons tok rest ih =>
    unfold Greenhouse.goTokens at h
    cases hf : Greenhouse._fetch_greenhouse_job api jid tok with
    | some data =>
      rw [hf] at h
      simp only [Option.some.injEq] at h
      exact ⟨data, tok, h.symm⟩
    | none =>
      rw [hf] at h
      exact ih h

theorem Greenhouse.parse_shape {api : Greenhouse.GhApi} {u : Url}
    {r : Greenhouse.GhResult}
    (h : Greenhouse.parse_greenhouse_from_url api u = some r) :
    ∃ data token, r = Greenhouse.ghBuild data token := by
  unfold Greenhouse.parse_greenhouse_from_url at h
  simp only at h
  split at h
  case h_1 r' heq =>
    -- the path-shaped branch produced r'
    simp only [Option.some.injEq] at h
    subst h
    split at heq
    case h_1 token jid _ =>
      cases hf : Greenhouse._fetch_greenhouse_job api jid token with
      | some data =>
        rw [hf] at heq
        simp only [Option.some.injEq] at heq
        exact ⟨data, token, heq.symm⟩
      | none => rw [hf] at heq; simp at heq
    case h_2 => simp at heq
  case h_2 =>
    split at h
    · simp at h
    · exact Greenhouse.goTokens_shape h

theorem Greenhouse.fetchOutcome_eq_none {o : Greenhouse.ApiOutcome}
    (h : Greenhouse.validOutcome o = false) : Greenhouse.fetchOutcome o = none := by
  match o with
  | .exn => rfl
  | .resp status body =>
    unfold Greenhouse.fetchOutcome
    by_cases hs : status = 200
    · subst hs
      simp only [ne_eq, not_true_eq_false, if_false, ite_false]
      match body with
      | none => simp
      | some (.obj fields) =>
        simp only [Greenhouse.validOutcome] at h
        simp only [beq_self_eq_true, Bool.true_and] at h
        simp [h]
      | some .null | some (.bool _) | some (.num _) | some (.str _) | some (.arr _) => simp
    · simp [hs]

theorem Greenhouse.goTokens_none {api : Greenhouse.GhApi} {jid : String}
    (hf : ∀ tok, Greenhouse._fetch_greenhouse_job api jid tok = none)
    (l : List String) : Greenhouse.goTokens api jid l = none := by
  induction l with
  | nil => rfl
  | cons tok rest ih =>
    unfold Greenhouse.goTokens
    rw [hf tok]
    exact ih

theorem Greenhouse.parse_none {api : Greenhouse.GhApi}
    (hf : ∀ jid tok, Greenhouse._fetch_greenhouse_job api jid tok = none)
    (u : Url) : Greenhouse.parse_greenhouse_from_url api u = none := by
  unfold Greenhouse.parse_greenhouse_from_url
  simp only
  split
  case h_1 r heq =>
    exfalso
    split at heq
    case h_1 token jid _ =>
      rw [hf jid token] at heq
      simp at heq
    case h_2 => simp at heq
  case h_2 =>
    split
    · rfl
    · exact Greenhouse.goTokens_none (fun tok => hf _ tok) _

theorem ParseCommon.genericTitle_bound {d : ParseCommon.Doc} :
    ∀ s, ParseCommon.genericTitle d = some s → s.length ≤ 300 := by
  unfold ParseCommon.genericTitle
  apply pyAssign_bound
  · apply pyAssign_bound
    · intro s h
      obtain ⟨t, _, ht⟩ := Option.map_eq_some'.mp h
      subst ht; exact pyTake_length 300 t
    · intro s h
      cases hog : d.ogTitle with
      | none => rw [hog] at h; simp at h
      | some c =>
        rw [hog] at h
        by_cases hc : c = ""
        · simp [hc] at h
        · simp only [ne_eq, hc, not_false_eq_true, if_true, Option.some.injEq] at h
          subst h; exact pyTake_length 300 c
  · intro s h
    cases htt : d.titleTag with
    | none => rw [htt] at h; simp at h
    | some txt =>
      rw [htt] at h
      simp only at h
      cases hsep : ([" | ", " - ", " – ", " — "].findSome? (fun sep =>
          if containsSub (pyTake 300 txt) sep then
            let candidate := pyStrip (⟨splitHead sep.data (pyTake 300 txt).data⟩ : String)
            if candidate ≠ "" then some (pyTake 300 candidate) else none
          else none)) with
      | some c =>
        rw [hsep] at h
        simp only [Option.some.injEq] at h
        subst h
        obtain ⟨sep, _, hsepe⟩ := List.exists_of_findSome?_eq_some hsep
        split at hsepe
        · by_cases hcand : pyStrip (⟨splitHead sep.data (pyTake 300 txt).data⟩ : String) = ""
          · simp [hcand] at hsepe
          · simp only [ne_eq, hcand, not_false_eq_true, if_true, Option.some.injEq] at hsepe
            subst hsepe; exact pyTake_length 300 _
        · simp at hsepe
      | none =>
        rw [hsep] at h
        by_cases hft : pyTake 300 txt = ""
        · simp [hft] at h
        · simp only [ne_eq, hft, not_false_eq_true, if_true, Option.some.injEq] at h
          subst h; exact pyTake_length 300 txt

theorem ParseCommon.slugTitle_bound {u : Url} :
    ∀ s, ParseCommon.slugTitle u = some s → s.length ≤ 300 := by
  intro s h
  unfold ParseCommon.slugTitle at h
  dsimp only at h
  split at h
  case h_1 seg _ =>
    by_cases hraw : pyStrip (pyReplaceChar '_' ' ' (pyReplaceChar '-' ' ' seg)) = ""
    · simp [hraw] at h
    · simp only [ne_eq, hraw, not_false_eq_true, if_true, Option.some.injEq] at h
      subst h; exact pyTake_length 300 _
  case h_2 => simp at h

theorem ParseCommon.genericEmployer_bound {d : ParseCommon.Doc} {u : Url}
    {hint : Option String} :
    ∀ s, ParseCommon.genericEmployer d u hint = some s → s.length ≤ 300 := by
  unfold ParseCommon.genericEmployer
  apply pyAssign_bound
  · apply pyAssign_bound
    · intro s h
      cases hog : d.ogSiteName with
      | none => rw [hog] at h; simp at h
      | some c =>
        rw [hog] at h
        by_cases hc : c = ""
        · simp [hc] at h
        · simp only [ne_eq, hc, not_false_eq_true, if_true, Option.some.injEq] at h
          subst h; exact pyTake_length 300 c
    · intro s h
      split at h
      · simp only [Option.some.injEq] at h
        subst h; exact pyTake_length 300 _
      · simp at h
  · intro s h
    cases hh : hint with
    | none => rw [hh] at h; simp at h
    | some v =>
      rw [hh] at h
      by_cases hv : v = ""
      · simp [hv] at h
      · simp only [ne_eq, hv, not_false_eq_true, if_true, Option.some.injEq] at h
        subst h; exact pyTake_length 300 v

theorem ParseCommon.map_str_eq {x : Option String} {s : String}
    (h : x.map Json.str = some (.str s)) : x = some s := by
  obtain ⟨t, hx, ht⟩ := Option.map_eq_some'.mp h
  cases ht
  exact hx

theorem ParseCommon.ultiproStage_trace_shape (env : ParseCommon.Env)
    (d : ParseCommon.Doc) (u : Url) :
    (ParseCommon.ultiproStage env d u).2.2 = [] ∨
    (ParseCommon.ultiproStage env d u).2.2 = [.ranUltipro] ∨
    (ParseCommon.ultiproStage env d u).2.2 = [.ranUltipro, .htmlProxyFetch] ∨
    (ParseCommon.ultiproStage env d u).2.2 = [.ranUltipro, .htmlProxyFetch, .ranUltipro] := by
  by_cases hdom : (u.domain == "ultipro") = true
  · by_cases ht1 : pyTruthy (Ultipro.parse_ultipro_from_html d.up).title = true
    · simp [ParseCommon.ultiproStage, hdom, ht1]
    · rw [Bool.not_eq_true] at ht1
      cases hp : env.proxy with
      | exn => simp [ParseCommon.ultiproStage, hdom, ht1, hp]
      | resp ok nonempty updoc =>
        by_cases hok : (ok && nonempty) = true
        · by_cases ht2 : pyTruthy (Ultipro.parse_ultipro_from_html updoc).title = true
          · simp [ParseCommon.ultiproStage, hdom, ht1, hp, hok, ht2]
          · rw [Bool.not_eq_true] at ht2
            simp [ParseCommon.ultiproStage, hdom, ht1, hp, hok, ht2]
        · rw [Bool.not_eq_true] at hok
          simp [ParseCommon.ultiproStage, hdom, ht1, hp, hok]
  · rw [Bool.not_eq_true] at hdom
    simp [ParseCommon.ultiproStage, hdom]

theorem ParseCommon.ultiproStage_runs (env : ParseCommon.Env)
    (d : ParseCommon.Doc) (u : Url) (h : u.domain = "ultipro") :
    ((ParseCommon.ultiproStage env d u).2.2).contains ParseCommon.Effect.ranUltipro = true := by
  by_cases ht1 : pyTruthy (Ultipro.parse_ultipro_from_html d.up).title = true
  · simp [ParseCommon.ultiproStage, h, ht1, List.contains]
  · rw [Bool.not_eq_true] at ht1
    cases hp : env.proxy with
    | exn => simp [ParseCommon.ultiproStage, h, ht1, hp, List.contains]
    | resp ok nonempty updoc =>
      by_cases hok : (ok && nonempty) = true
      · by_cases ht2 : pyTruthy (Ultipro.parse_ultipro_from_html updoc).title = true
        · simp [ParseCommon.ultiproStage, h, ht1, hp, hok, ht2, List.contains]
        · rw [Bool.not_eq_true] at ht2
          simp [ParseCommon.ultiproStage, h, ht1, hp, hok, ht2, List.contains]
      · rw [Bool.not_eq_true] at hok
        simp [ParseCommon.ultiproStage, h, ht1, hp, hok, List.contains]

theorem ParseCommon.ultiproStage_result (env : ParseCommon.Env)
    (d : ParseCommon.Doc) (u : Url) (r : ParseCommon.PipeResult)
    (h : (ParseCommon.ultiproStage env d u).1 = some r) :
    (∀ s, r.title = some (.str s) → s.length ≤ 300) ∧
    (∀ s, r.employer = some (.str s) → s.length ≤ 300) ∧
    r.location = none := by
  by_cases hdom : (u.domain == "ultipro") = true
  · by_cases ht1 : pyTruthy (Ultipro.parse_ultipro_from_html d.up).title = true
    · simp only [ParseCommon.ultiproStage, hdom, ht1, if_true, Option.some.injEq] at h
      subst h
      refine ⟨?_, ?_, rfl⟩
      · intro s hs
        exact Ultipro.title_bound (ParseCommon.map_str_eq hs)
      · intro s hs
        exact Ultipro.employer_bound (ParseCommon.map_str_eq hs)
    · rw [Bool.not_eq_true] at ht1
      cases hp : env.proxy with
      | exn => simp [ParseCommon.ultiproStage, hdom, ht1, hp] at h
      | resp ok nonempty updoc =>
        by_cases hok : (ok && nonempty) = true
        · by_cases ht2 : pyTruthy (Ultipro.parse_ultipro_from_html updoc).title = true
          · simp only [ParseCommon.ultiproStage, hdom, ht1, hp, hok, ht2, if_true,
              Bool.false_eq_true, if_false, Option.some.injEq] at h
            subst h
            refine ⟨?_, ?_, rfl⟩
            · intro s hs
              exact Ultipro.title_bound (ParseCommon.map_str_eq hs)
            · intro s hs
              rcases pyOr_eq_some (ParseCommon.map_str_eq hs) with h2 | h2
              · exact Ultipro.employer_bound h2
              · split at h2
                · exact Ultipro.employer_bound h2
                · simp at h2
          · rw [Bool.not_eq_true] at ht2
            simp [ParseCommon.ultiproStage, hdom, ht1, hp, hok, ht2] at h
        · rw [Bool.not_eq_true] at hok
          simp [ParseCommon.ultiproStage, hdom, ht1, hp, hok] at h
  · rw [Bool.not_eq_true] at hdom
    simp [ParseCommon.ultiproStage, hdom] at h

theorem ParseCommon.trace_shape (env : ParseCommon.Env) (d : ParseCommon.Doc) (u : Url) :
    (ParseCommon.parse_job_from_html env d u).2 = [] ∨
    (ParseCommon.parse_job_from_html env d u).2 = (ParseCommon.ultiproStage env d u).2.2 := by
  unfold ParseCommon.parse_job_from_html
  split
  · split
    · left; rfl
    · unfold ParseCommon.afterGreenhouse
      split
      · left; rfl
      · split
        case h_1 r rest tr heq => right; rw [heq]
        case h_2 hint tr heq => right; rw [heq]
  · unfold ParseCommon.afterGreenhouse
    split
    · left; rfl
    · split
      case h_1 r rest tr heq => right; rw [heq]
      case h_2 hint tr heq => right; rw [heq]

theorem ParseCommon.ldResult_bounds (node : Json) (u : Url) :
    (∀ s, (ParseCommon.ldResult node u).title = some (.str s) → s.length ≤ 300) ∧
    (∀ s, (ParseCommon.ldResult node u).employer = some (.str s) → s.length ≤ 300) ∧
    (∀ s, (ParseCommon.ldResult node u).location = some (.str s) → s.length ≤ 255) := by
  refine ⟨?_, ?_, ?_⟩
  · intro s hs
    exact truncIfStr_bound 300 _ s hs
  · intro s hs
    exact truncIfStr_bound 300 _ s hs
  · intro s hs
    exact truncIfStr_bound 255 _ s hs

theorem ParseCommon.genericStage_bounds (d : ParseCommon.Doc) (u : Url)
    (hint : Option String) :
    (∀ s, (ParseCommon.genericStage d u hint).title = some (.str s) → s.length ≤ 300) ∧
    (∀ s, (ParseCommon.genericStage d u hint).employer = some (.str s) → s.length ≤ 300) ∧
    (ParseCommon.genericStage d u hint).location = none := by
  refine ⟨?_, ?_, rfl⟩
  · intro s hs
    have h2 := ParseCommon.map_str_eq hs
    exact pyAssign_bound (fun t => ParseCommon.genericTitle_bound t)
      (fun t => ParseCommon.slugTitle_bound t) s h2
  · intro s hs
    exact ParseCommon.genericEmployer_bound s (ParseCommon.map_str_eq hs)

theorem ParseCommon.pipeline_after (env : ParseCommon.Env) (d : ParseCommon.Doc) (u : Url)
    (hgh : ParseCommon.ghHit (Greenhouse.parse_greenhouse_from_url env.api u) = false) :
    ParseCommon.parse_job_from_html env d u = ParseCommon.afterGreenhouse env d u := by
  unfold ParseCommon.parse_job_from_html
  cases hg : Greenhouse.parse_greenhouse_from_url env.api u with
  | none => rfl
  | some gh =>
    rw [hg] at hgh
    simp only [ParseCommon.ghHit] at hgh
    simp [hgh]

theorem ParseCommon.after_trace (env : ParseCommon.Env) (d : ParseCommon.Doc) (u : Url)
    (hld : ParseCommon.firstJobPosting d.ldScripts = none) :
    (ParseCommon.afterGreenhouse env d u).2 = (ParseCommon.ultiproStage env d u).2.2 := by
  unfold ParseCommon.afterGreenhouse
  rw [hld]
  rcases hstage : ParseCommon.ultiproStage env d u with ⟨_ | r, hint, tr⟩ <;> rfl

theorem ParseCommon.after_ld (env : ParseCommon.Env) (d : ParseCommon.Doc) (u : Url)
    {node : Json} (hld : ParseCommon.firstJobPosting d.ldScripts = some node) :
    ParseCommon.afterGreenhouse env d u = (ParseCommon.ldResult node u, []) := by
  unfold ParseCommon.afterGreenhouse
  rw [hld]

/-! ## Claims -/

/-- C1: for the URL https://boards.greenhouse.io/acme/jobs/12345, with the
lookup API answering title Data Engineer and company_name Acme Inc, the
extraction pipeline returns exactly those two fields, with the source site
set from the URL, and does so for every fetched content with an empty side
effect trace: no HTML fetch is performed and the content is never
consulted. -/
theorem spec_C1 (d : ParseCommon.Doc) :
    ParseCommon.parse_job_from_html envGh d uGh =
      ({ title := some (.str "Data Engineer"), employer := some (.str "Acme Inc"),
         date_posted := none, location := none, source_site := "greenhouse.io" }, []) := rfl

/-- C2 counterexample: the registrable domain of uLi is linkedin.com, one
of the three recognised platforms, yet the pipeline runs no platform
extractor on it at all (the effect trace is empty), refuting the claim
that a matching registrable domain selects and runs the platform
extractor. -/
theorem spec_C2_counterexample :
    registrableDomainSpec uLi = "linkedin.com" ∧
    (ParseCommon.parse_job_from_html envNone emptyDoc uLi).2 = [] := ⟨rfl, rfl⟩

/-- C2 amended: only the legacy HR-suite (UltiPro) extractor is wired into
the pipeline; the LinkedIn and iCIMS extractors are defined but never
selected for any content or URL, while a URL whose tldextract domain is
ultipro does have the UltiPro extractor run once the API and JSON-LD tiers
have missed. -/
theorem spec_C2 (env : ParseCommon.Env) (d : ParseCommon.Doc) (u : Url) :
    ((ParseCommon.parse_job_from_html env d u).2.contains ParseCommon.Effect.ranLinkedin = false ∧
     (ParseCommon.parse_job_from_html env d u).2.contains ParseCommon.Effect.ranIcims = false) ∧
    (u.domain = "ultipro" →
      ParseCommon.ghHit (Greenhouse.parse_greenhouse_from_url env.api u) = false →
      ParseCommon.firstJobPosting d.ldScripts = none →
      (ParseCommon.parse_job_from_html env d u).2.contains ParseCommon.Effect.ranUltipro = true) := by
  constructor
  · have hshape := ParseCommon.trace_shape env d u
    have hstage := ParseCommon.ultiproStage_trace_shape env d u
    rcases hshape with h | h <;> rw [h]
    · exact ⟨rfl, rfl⟩
    · rcases hstage with h2 | h2 | h2 | h2 <;> rw [h2] <;> exact ⟨rfl, rfl⟩
  · intro hdom hgh hld
    rw [ParseCommon.pipeline_after env d u hgh, ParseCommon.after_trace env d u hld]
    exact ParseCommon.ultiproStage_runs env d u hdom

/-- C2 witness: at an UltiPro URL with both earlier tiers missing, the
UltiPro extractor run appears in the trace. -/
theorem spec_C2_witness :
    (ParseCommon.parse_job_from_html envNone emptyDoc uUp).2.contains
      ParseCommon.Effect.ranUltipro = true :=
  (spec_C2 envNone emptyDoc uUp).2 rfl rfl rfl

/-- C3 counterexample: the LinkedIn platform extractor returns the known
placeholder string Job Details as title (its title selectors apply no
generic-title rejection), refuting the claim that no platform extractor
ever returns a known placeholder as title. -/
theorem spec_C3_counterexample :
    (LinkedIn.parse_linkedin_from_html liDocJD).title = some "Job Details" ∧
    Ultipro._is_generic_title "Job Details" = true := ⟨rfl, rfl⟩

/-- C3 amended: the UltiPro extractor never returns a known placeholder
string as title: every candidate from every title source passes the
generic-title rejection; the LinkedIn extractor applies no such rejection
to titles. -/
theorem spec_C3 (d : Ultipro.UltiDoc) (t : String)
    (h : (Ultipro.parse_ultipro_from_html d).title = some t) :
    Ultipro._is_generic_title t = false :=
  Ultipro.title_not_generic h

/-- C3 witness: a concrete UltiPro document whose OpenGraph title survives
the rejection. -/
theorem spec_C3_witness : Ultipro._is_generic_title "Software Engineer I" = false :=
  spec_C3 docUpTitle "Software Engineer I" rfl

/-- C4 counterexample: for a URL whose hostname has no public suffix,
_extract_source_site returns the whole URL string, not the registrable
domain, refuting the claim that source_site always equals the registrable
domain. -/
theorem spec_C4_counterexample :
    _extract_source_site uLocal ≠ registrableDomainSpec uLocal := by decide

/-- C4 amended: source_site equals the registrable domain whenever the
tldextract domain and suffix of the URL are both nonempty; otherwise it
falls back to the full URL string, and it is nonempty whenever the input
URL string is nonempty. -/
theorem spec_C4 (u : Url) :
    (u.domain ≠ "" → u.suffix ≠ "" → _extract_source_site u = registrableDomainSpec u) ∧
    (u.raw ≠ "" → _extract_source_site u ≠ "") := by
  constructor
  · intro hd hs
    unfold _extract_source_site registrableDomainSpec
    simp [hd, hs]
  · intro hraw
    unfold _extract_source_site
    split
    case isTrue hcond =>
      intro hEq
      have hlen : (u.domain ++ "." ++ u.suffix).length = 0 := by rw [hEq]; rfl
      simp only [String.length_append] at hlen
      have : ("." : String).length = 1 := rfl
      omega
    case isFalse => exact hraw

/-- C4 witness: at careers.example.com the source site is the registrable
domain example.com and nonempty. -/
theorem spec_C4_witness :
    _extract_source_site u9 = registrableDomainSpec u9 ∧ _extract_source_site u9 ≠ "" :=
  ⟨(spec_C4 u9).1 (by decide) (by decide), (spec_C4 u9).2 (by decide)⟩

/-- C5: for every environment, content and URL, every string title or
employer in the pipeline result is at most 300 characters and every string
location at most 255; the truncation is a total function and cannot fail. -/
theorem spec_C5 (env : ParseCommon.Env) (d : ParseCommon.Doc) (u : Url) :
    (∀ s, (ParseCommon.parse_job_from_html env d u).1.title = some (.str s) → s.length ≤ 300) ∧
    (∀ s, (ParseCommon.parse_job_from_html env d u).1.employer = some (.str s) → s.length ≤ 300) ∧
    (∀ s, (ParseCommon.parse_job_from_html env d u).1.location = some (.str s) → s.length ≤ 255) := by
  have hafter :
      (∀ s, (ParseCommon.afterGreenhouse env d u).1.title = some (.str s) → s.length ≤ 300) ∧
      (∀ s, (ParseCommon.afterGreenhouse env d u).1.employer = some (.str s) → s.length ≤ 300) ∧
      (∀ s, (ParseCommon.afterGreenhouse env d u).1.location = some (.str s) → s.length ≤ 255) := by
    unfold ParseCommon.afterGreenhouse
    cases hld : ParseCommon.firstJobPosting d.ldScripts with
    | some node =>
      exact ParseCommon.ldResult_bounds node u
    | none =>
      rcases hstage : ParseCommon.ultiproStage env d u with ⟨_ | r, hint, tr⟩
      · have hg := ParseCommon.genericStage_bounds d u hint
        refine ⟨hg.1, hg.2.1, ?_⟩
        intro s hs
        rw [hg.2.2] at hs
        simp at hs
      · have hr := ParseCommon.ultiproStage_result env d u r (by rw [hstage])
        refine ⟨hr.1, hr.2.1, ?_⟩
        intro s hs
        rw [hr.2.2] at hs
        simp at hs
  unfold ParseCommon.parse_job_from_html
  cases hg : Greenhouse.parse_greenhouse_from_url env.api u with
  | none => exact hafter
  | some gh =>
    by_cases hguard : (jTruthy gh.title || jTruthy gh.employer) = true
    · simp only [hguard, if_true]
      obtain ⟨data, token, htok⟩ := Greenhouse.parse_shape hg
      subst htok
      refine ⟨?_, ?_, ?_⟩
      · intro s hs
        exact Greenhouse.ghBuild_title_bound data token s hs
      · intro s hs
        exact Greenhouse.ghBuild_employer_bound data token s hs
      · intro s hs
        simp at hs
    · rw [Bool.not_eq_true] at hguard
      simp only [hguard, Bool.false_eq_true, if_false]
      exact hafter

/-- C5 witness: a concrete run whose h1 supplies the title Engineer. -/
theorem spec_C5_witness : ("Engineer" : String).length ≤ 300 :=
  (spec_C5 envNone docH1 u9).1 "Engineer" rfl

/-- C6: the authoritative-API resolver never raises (it is a total
function); whenever every API outcome is other than a 200 response whose
body is a JSON object holding a title key, every per-token lookup is
treated as not found and resolution returns empty for every URL. -/
theorem spec_C6 (api : Greenhouse.GhApi)
    (h : ∀ jid tok, Greenhouse.validOutcome (api jid tok) = false) :
    (∀ jid tok, Greenhouse._fetch_greenhouse_job api jid tok = none) ∧
    (∀ u, Greenhouse.parse_greenhouse_from_url api u = none) := by
  have hf : ∀ jid tok, Greenhouse._fetch_greenhouse_job api jid tok = none :=
    fun jid tok => Greenhouse.fetchOutcome_eq_none (h jid tok)
  exact ⟨hf, fun u => Greenhouse.parse_none hf u⟩

/-- C6 witness: with an API that always raises, resolution of the
Greenhouse URL returns empty. -/
theorem spec_C6_witness : Greenhouse.parse_greenhouse_from_url noApi uGh = none :=
  (spec_C6 noApi (fun _ _ => rfl)).2 uGh

/-- C7 counterexample: the direct GET answers HTTP 500, a non-transient
failure; the per-call transient-only retry the claim describes surfaces
that status error, but the decorated fetch_url re-runs the whole strategy
chain and succeeds on the second attempt, so the claim misdescribes both
the retry scope and the retried failure set. -/
theorem spec_C7_counterexample :
    (Fetch.fetch_url cfg0 u9 net7).1 = .ok "ok" ∧
    (Fetch.fetch_url_spec cfg0 u9 net7).1 = .error (.httpStatus 500) := ⟨rfl, rfl⟩

/-- C7 amended: the tenacity retry wrapper (up to 3 attempts, exponential
backoff base 0.5s factor 2 capped at 4s) decorates fetch_url itself: it
re-runs the entire strategy chain, not individual network calls, and it
retries on any exception raised out of the chain, including HTTP status
errors, not only transient failures. -/
theorem spec_C7 (cfg : Fetch.FetchCfg) (u : Url) (net : Nat → Fetch.HttpOutcome)
    (e : Fetch.FetchErr) (b : String)
    (h1 : (Fetch.fetch_once cfg u net 0).1 = .error e)
    (h2 : (Fetch.fetch_once cfg u net (Fetch.fetch_once cfg u net 0).2.2).1 = .ok b) :
    (Fetch.fetch_url cfg u net).1 = .ok b := by
  unfold Fetch.fetch_url
  rcases h0 : Fetch.fetch_once cfg u net 0 with ⟨r1, t1, k1⟩
  rw [h0] at h1 h2
  simp only at h1 h2
  subst h1
  rcases h0' : Fetch.fetch_once cfg u net k1 with ⟨r2, t2, k2⟩
  rw [h0'] at h2
  simp only at h2
  subst h2
  simp only [h0']

/-- C7 witness: the whole-chain retry turns the 500-then-200 script into a
success. -/
theorem spec_C7_witness : (Fetch.fetch_url cfg0 u9 net7).1 = .ok "ok" :=
  spec_C7 cfg0 u9 net7 (.httpStatus 500) "ok" rfl rfl

/-- C8: when the direct fetch answers 403 and the session retry (after the
priming call, with the Referer header) answers 2xx with body b, fetch_url
returns b having issued exactly the direct, priming and session-retry
requests; the proxy-reader tier is never invoked. -/
theorem spec_C8 (cfg : Fetch.FetchCfg) (u : Url) (net : Nat → Fetch.HttpOutcome)
    (b0 : String) (s2 : Nat) (b : String)
    (h0 : net 0 = .resp 403 b0) (h2 : net 2 = .resp s2 b)
    (hlo : 200 ≤ s2) (hhi : s2 < 300) :
    (Fetch.fetch_url cfg u net).1 = .ok b ∧
    (Fetch.fetch_url cfg u net).2 = [.direct, .prime, .sessionRetry] ∧
    (Fetch.fetch_url cfg u net).2.contains Fetch.HttpReq.proxyGet = false := by
  have hok : Fetch.respOk s2 = true := by
    unfold Fetch.respOk
    exact decide_eq_true (by omega)
  have hf : Fetch.fetch_once cfg u net 0 =
      (.ok b, [.direct, .prime, .sessionRetry], 3) := by
    unfold Fetch.fetch_once
    rw [h0]
    have h02 : (0 : Nat) + 2 = 2 := rfl
    rw [h02, h2]
    simp [hok]
  have hu : Fetch.fetch_url cfg u net = (.ok b, [.direct, .prime, .sessionRetry]) := by
    unfold Fetch.fetch_url
    rw [hf]
  rw [hu]
  exact ⟨rfl, rfl, rfl⟩

/-- C8 witness: the concrete 403-then-200 script returns the session-retry
content without a proxy request. -/
theorem spec_C8_witness :
    (Fetch.fetch_url cfg0 u9 net8).1 = .ok "content" ∧
    (Fetch.fetch_url cfg0 u9 net8).2 = [.direct, .prime, .sessionRetry] ∧
    (Fetch.fetch_url cfg0 u9 net8).2.contains Fetch.HttpReq.proxyGet = false :=
  spec_C8 cfg0 u9 net8 "denied" 200 "content" rfl rfl (by omega) (by omega)

/-- C9: for https://careers.example.com/jobs/987654/senior-backend-engineer
with content holding no structured data and no platform match, the generic
slug derivation yields the title Senior Backend Engineer: the numeric id
and the jobs segment are discarded, hyphens become spaces, and the result
is title-cased. -/
theorem spec_C9 :
    (ParseCommon.parse_job_from_html envNone emptyDoc u9).1.title =
      some (.str "Senior Backend Engineer") := rfl

/-- C10: whenever the Greenhouse tier misses and the first JSON-LD
JobPosting node lacks both a title and a name field, the pipeline still
returns the fields of that node immediately with an empty effect trace — the
platform and generic tiers are never consulted — and the returned title is
empty. -/
theorem spec_C10 (env : ParseCommon.Env) (d : ParseCommon.Doc) (u : Url) (node : Json)
    (hgh : ParseCommon.ghHit (Greenhouse.parse_greenhouse_from_url env.api u) = false)
    (hld : ParseCommon.firstJobPosting d.ldScripts = some node)
    (ht : node.get "title" = none) (hn : node.get "name" = none) :
    ParseCommon.parse_job_from_html env d u = (ParseCommon.ldResult node u, []) ∧
    (ParseCommon.ldResult node u).title = none := by
  constructor
  · rw [ParseCommon.pipeline_after env d u hgh]
    exact ParseCommon.after_ld env d u hld
  · unfold ParseCommon.ldResult
    simp only [ht, hn]
    rfl

/-- C10 witness: a bare JobPosting node with neither title nor name is
returned as the whole result, with empty title and no further tiers. -/
theorem spec_C10_witness :
    ParseCommon.parse_job_from_html envNone doc10 u9 = (ParseCommon.ldResult node0 u9, []) ∧
    (ParseCommon.ldResult node0 u9).title = none :=
  spec_C10 envNone doc10 u9 node0 rfl rfl rfl rfl
